import Mathlib

/-!
Shallow embedding of the Sebastian chatbot backend (`backend/server.py`).

The backend is a set of HTTP handlers over a document store.  We model the
store as explicit lists of records, fresh UUIDs and timestamps as values
supplied by a request environment, the external LLM as an oracle function,
and each handler as a pure function from the current state to a result and a
new state.  Python string operations used by the handlers are re-implemented
on character lists so that all definitions evaluate by kernel reduction.
-/

namespace Sebastian

/-- Splits a character list on every occurrence of the separator character,
mirroring Python's `str.split(sep)` for a one-character separator. -/
def splitOnChar (c : Char) : List Char → List (List Char)
  | [] => [[]]
  | x :: xs =>
    let r := splitOnChar c xs
    if x = c then [] :: r
    else
      match r with
      | [] => [[x]]
      | h :: t => (x :: h) :: t

/-- Mirrors Python's `p in s` test used as `'.' in file.filename`. -/
def strContains (s : String) (c : Char) : Bool :=
  s.data.contains c

/-- Mirrors Python's `s.startswith(p)` used for the MIME-type check. -/
def strStartsWith (s p : String) : Bool :=
  p.data.isPrefixOf s.data

/-- Mirrors Python's `s.strip()`: drop whitespace from both ends. -/
def pyStrip (s : String) : String :=
  String.mk (((s.data.dropWhile Char.isWhitespace).reverse.dropWhile
    Char.isWhitespace).reverse)

/-- Mirrors Python's `sep.join(parts)`. -/
def joinSep (sep : String) : List String → String
  | [] => ""
  | [x] => x
  | x :: xs => x ++ sep ++ joinSep sep xs

/-- Mongo `update_one` with a `$set`-style modifier: rewrite the first
matching document in the collection and leave the rest untouched. -/
def update_one (p : α → Bool) (f : α → α) : List α → List α
  | [] => []
  | x :: xs => if p x then f x :: xs else x :: update_one p f xs

/-- User record of the `users` collection (`class User`). -/
structure User where
  id : String
  username : String
  password_hash : String
  is_admin : Bool
  deriving DecidableEq

/-- Message record of the `messages` collection (`class Message`). -/
structure Message where
  id : String
  chat_id : String
  sender : String
  content : String
  message_type : String
  image_url : Option String
  timestamp : Nat
  is_admin_response : Bool
  deriving DecidableEq

/-- Chat record of the `chats` collection (`class Chat`). -/
structure Chat where
  id : String
  user_id : String
  username : String
  created_at : Nat
  last_message_at : Nat
  admin_active : Bool
  deriving DecidableEq

/-- The whole mutable state: the three Mongo collections plus the contents of
the `uploads` directory (filename and raw bytes). -/
structure DB where
  users : List User
  chats : List Chat
  messages : List Message
  uploads : List (String × List Nat)
  deriving DecidableEq

/-- Decoded JWT payload: `{"user_id": ..., "is_admin": ...}`. -/
structure TokenPayload where
  user_id : String
  is_admin : Bool
  deriving DecidableEq

/-- A bearer token is either a payload signed with some secret, or garbage;
this models `jwt.encode`/`jwt.decode` with the HS256 secret.  The payload
carries no expiry claim, exactly as in `create_token`. -/
inductive Token where
  | signed (payload : TokenPayload) (secret : String)
  | malformed
  deriving DecidableEq

def JWT_SECRET : String := "sebastian_michaelis_secret_key"

def create_token (user_id : String) (is_admin : Bool) : Token :=
  Token.signed ⟨user_id, is_admin⟩ JWT_SECRET

/-- HTTP error responses raised via `HTTPException`. -/
inductive ApiError where
  | badRequest (detail : String)
  | unauthorized (detail : String)
  | forbidden (detail : String)
  | notFound (detail : String)
  deriving DecidableEq

/-- `verify_token`: decode the bearer token, returning the payload or a 401. -/
def verify_token : Token → Except ApiError TokenPayload
  | Token.signed p s =>
    if s = JWT_SECRET then Except.ok p
    else Except.error (ApiError.unauthorized "Invalid token")
  | Token.malformed => Except.error (ApiError.unauthorized "Invalid token")

/-- Models the external `hashlib.sha256(...).hexdigest()` as a deterministic
function on strings; the backend relies only on the digest being a
deterministic one-way function of its input. -/
def sha256_hexdigest (s : String) : String :=
  "sha256:" ++ s

def hash_password (password : String) : String :=
  sha256_hexdigest password

def verify_password (password hashed : String) : Bool :=
  hash_password password == hashed

/-- Outcome of one call to the hosted model: a response text, or any failure
(timeout, malformed response, upstream error) collapsed into one case. -/
inductive LlmOutcome where
  | success (text : String)
  | failure
  deriving DecidableEq

/-- One entry of the `chat_history` list handed to the generator
(`{"sender": ..., "content": ...}`). -/
structure HistEntry where
  sender : String
  content : String
  deriving DecidableEq

/-- The fixed in-character apology returned when the model call fails
(the string literal in the source contains mojibake for "facoltà"). -/
def sebastian_fallback : String :=
  "*si inchina con grazia* Mi scuso profondamente, mio signore. Un momentaneo intoppo nelle mie facolt\u221A\u2020 mi impedisce di rispondere come meritiate. Permettetemi un istante per recuperare la mia consueta perfezione."

/-- Speaker label used when rendering history lines:
`'Utente' if msg['sender'] == 'user' else 'Sebastian'`. -/
def speaker_label (sender : String) : String :=
  if sender = "user" then "Utente" else "Sebastian"

/-- Python slice `l[-n:]`: the last `n` elements. -/
def lastN (n : Nat) (l : List α) : List α :=
  l.drop (l.length - n)

/-- `"\n".join(...)` over `chat_history[-6:]`, each entry rendered as
`speaker: content`. -/
def render_context (chat_history : List HistEntry) : String :=
  joinSep "\n"
    ((lastN 6 chat_history).map (fun m => speaker_label m.sender ++ ": " ++ m.content))

/-- The prompt assembled by `get_sebastian_ai_response` before the model is
invoked: the message, an optional image instruction, and — when the history
is non-empty — the rendered context block prefixed in front. -/
def build_prompt (message : String) (chat_history : List HistEntry)
    (image_url : Option String) : String :=
  let prompt :=
    match image_url with
    | some url =>
      message ++ "\n\n*L\u0027utente ha condiviso un\u0027immagine: " ++ url ++
        "*\nTi prego di commentare questa immagine con il tuo stile elegante e raffinato, mio caro Sebastian."
    | none => message
  match chat_history with
  | [] => prompt
  | _ :: _ =>
    "Contesto della conversazione:\n" ++ render_context chat_history ++
      "\n\nNuovo messaggio: " ++ prompt

/-- `get_sebastian_ai_response`: build the prompt, make exactly one call to
the external model, return the stripped response on success and the fixed
fallback on any failure.  The second component is the trace of prompts sent
to the external model during this invocation. -/
def get_sebastian_ai_response (call : String → LlmOutcome) (message : String)
    (chat_history : List HistEntry) (image_url : Option String) :
    String × List String :=
  let prompt := build_prompt message chat_history image_url
  match call prompt with
  | LlmOutcome.success t => (pyStrip t, [prompt])
  | LlmOutcome.failure => (sebastian_fallback, [prompt])

/-- Fresh values consumed by one request: up to three generated UUIDs and the
`datetime.now` readings, in the order the handler draws them. -/
structure ReqEnv where
  new_id1 : String
  new_id2 : String
  new_id3 : String
  t_msg : Nat
  t_update : Nat
  t_bot : Nat
  deriving DecidableEq

/-- `POST /api/register`: reject a duplicate username, otherwise insert the
new user and return a token for it (plus the created record, as the JSON
response does). -/
def register (db : DB) (new_id : String) (username password : String) :
    Except ApiError (Token × User × DB) :=
  match db.users.find? (fun u => u.username == username) with
  | some _ => Except.error (ApiError.badRequest "Username already exists")
  | none =>
    let user_obj : User := ⟨new_id, username, hash_password password, false⟩
    Except.ok (create_token user_obj.id user_obj.is_admin, user_obj,
      { db with users := db.users ++ [user_obj] })

/-- `POST /api/login`. -/
def login (db : DB) (username password : String) : Except ApiError Token :=
  match db.users.find? (fun u => u.username == username) with
  | none => Except.error (ApiError.unauthorized "Invalid credentials")
  | some db_user =>
    if verify_password password db_user.password_hash then
      Except.ok (create_token db_user.id db_user.is_admin)
    else Except.error (ApiError.unauthorized "Invalid credentials")

/-- `POST /api/admin/login`: succeeds only for the literal pair
`("admin", "sebastian_admin")`; creates the admin user lazily when no user
named `admin` exists yet.  Returns the token, the responded user id, and the
new state. -/
def admin_login (db : DB) (new_id : String) (username password : String) :
    Except ApiError (Token × String × DB) :=
  if username == "admin" && password == "sebastian_admin" then
    match db.users.find? (fun u => u.username == "admin") with
    | some admin_user => Except.ok (create_token admin_user.id true, admin_user.id, db)
    | none =>
      let admin_obj : User := ⟨new_id, "admin", hash_password "sebastian_admin", true⟩
      Except.ok (create_token admin_obj.id true, admin_obj.id,
        { db with users := db.users ++ [admin_obj] })
  else Except.error (ApiError.unauthorized "Invalid admin credentials")

/-- Messages-of-a-chat ascending-timestamp order relation. -/
def tsLe (a b : Message) : Prop := a.timestamp ≤ b.timestamp

instance : DecidableRel tsLe := fun a b => Nat.decLe a.timestamp b.timestamp

instance : IsTotal Message tsLe := ⟨fun a b => Nat.le_total a.timestamp b.timestamp⟩

instance : IsTrans Message tsLe := ⟨fun _ _ _ => Nat.le_trans⟩

/-- Descending-timestamp order relation (Mongo `sort("timestamp", -1)`). -/
def tsGe (a b : Message) : Prop := b.timestamp ≤ a.timestamp

instance : DecidableRel tsGe := fun a b => Nat.decLe b.timestamp a.timestamp

def sortByTimeAsc (l : List Message) : List Message := List.insertionSort tsLe l

def sortByTimeDesc (l : List Message) : List Message := List.insertionSort tsGe l

/-- `GET /api/chat/{chat_id}/messages`: all messages of the chat sorted by
ascending timestamp, capped by `to_list(1000)`.  The verified caller payload
is accepted but never consulted. -/
def get_messages (db : DB) (chat_id : String) (user : TokenPayload) :
    List Message :=
  (sortByTimeAsc (db.messages.filter (fun m => m.chat_id == chat_id))).take 1000

/-- The `chat_history` assembled by `send_message`/`upload_image`: the ten
most recent messages of the chat (descending query, `limit(10)`), with the
slice `[:-1]` applied and the remainder reversed into ascending order. -/
def recent_history (db : DB) (chat_id : String) : List HistEntry :=
  (((sortByTimeDesc (db.messages.filter (fun m => m.chat_id == chat_id))).take
      10).dropLast.reverse).map (fun m => HistEntry.mk m.sender m.content)

/-- `POST /api/chat/{chat_id}/message`: 404 when the chat is unknown;
otherwise persist the user message, bump `last_message_at`, and — only when
`admin_active` is false — call the generator and persist its reply tagged
sender `sebastian`.  Returns the new state and the trace of external calls. -/
def send_message (env : ReqEnv) (call : String → LlmOutcome) (db : DB)
    (chat_id : String) (content message_type : String) (user : TokenPayload) :
    Except ApiError (DB × List String) :=
  match db.chats.find? (fun c => c.id == chat_id) with
  | none => Except.error (ApiError.notFound "Chat not found")
  | some chat =>
    let user_message : Message :=
      ⟨env.new_id1, chat_id, "user", content, message_type, none, env.t_msg, false⟩
    let db2 : DB :=
      { db with
        messages := db.messages ++ [user_message],
        chats := update_one (fun c => c.id == chat_id)
          (fun c => { c with last_message_at := env.t_update }) db.chats }
    if chat.admin_active then
      Except.ok (db2, [])
    else
      let r := get_sebastian_ai_response call content (recent_history db2 chat_id)
        user_message.image_url
      let bot_message : Message :=
        ⟨env.new_id2, chat_id, "sebastian", r.1, "text", none, env.t_bot, false⟩
      Except.ok ({ db2 with messages := db2.messages ++ [bot_message] }, r.2)

/-- Placeholder caption substituted for an empty caption (the source literal
is mojibake for the camera emoji). -/
def image_placeholder_caption : String :=
  "\uF8FF\u00FC\u00EC\u2211 Immagine condivisa"

/-- `file.filename.split('.')[-1] if '.' in file.filename else 'jpg'`. -/
def file_ext (filename : String) : String :=
  if strContains filename '.' then
    String.mk ((splitOnChar '.' filename.data).getLastD [])
  else "jpg"

/-- `POST /api/chat/{chat_id}/upload`: reject non-image MIME types, write the
bytes under a fresh filename, then look the chat up (404 leaves the written
file behind), persist the image message (placeholder caption when empty),
bump `last_message_at`, and generate the persona reply when `admin_active`
is false.  Always returns the resulting state; the `ok` payload is the image
URL and the trace of external calls. -/
def upload_image (env : ReqEnv) (call : String → LlmOutcome) (db : DB)
    (chat_id : String) (content_type filename : String) (file_bytes : List Nat)
    (caption : String) (user : TokenPayload) :
    DB × Except ApiError (String × List String) :=
  if strStartsWith content_type "image/" = false then
    (db, Except.error (ApiError.badRequest "Only image files are allowed"))
  else
    let unique_filename := env.new_id1 ++ "." ++ file_ext filename
    let db1 : DB := { db with uploads := db.uploads ++ [(unique_filename, file_bytes)] }
    let image_url := "/uploads/" ++ unique_filename
    match db1.chats.find? (fun c => c.id == chat_id) with
    | none => (db1, Except.error (ApiError.notFound "Chat not found"))
    | some chat =>
      let user_message : Message :=
        ⟨env.new_id2, chat_id, "user",
          (if caption == "" then image_placeholder_caption else caption),
          "image", some image_url, env.t_msg, false⟩
      let db2 : DB :=
        { db1 with
          messages := db1.messages ++ [user_message],
          chats := update_one (fun c => c.id == chat_id)
            (fun c => { c with last_message_at := env.t_update }) db1.chats }
      if chat.admin_active then
        (db2, Except.ok (image_url, []))
      else
        let image_prompt :=
          "L\u0027utente ha condiviso un\u0027immagine" ++
            (if caption == "" then ""
             else " con la didascalia: \u0027" ++ caption ++ "\u0027")
        let r := get_sebastian_ai_response call image_prompt
          (recent_history db2 chat_id) (some image_url)
        let bot_message : Message :=
          ⟨env.new_id3, chat_id, "sebastian", r.1, "text", none, env.t_bot, false⟩
        ({ db2 with messages := db2.messages ++ [bot_message] },
          Except.ok (image_url, r.2))

/-- `POST /api/admin/chat/{chat_id}/toggle-active`: admin only; flip the
chat's `admin_active` flag and return the new value with the new state. -/
def toggle_admin_active (db : DB) (chat_id : String) (user : TokenPayload) :
    Except ApiError (Bool × DB) :=
  if user.is_admin = false then
    Except.error (ApiError.forbidden "Admin access required")
  else
    match db.chats.find? (fun c => c.id == chat_id) with
    | none => Except.error (ApiError.notFound "Chat not found")
    | some chat =>
      let new_status := !chat.admin_active
      Except.ok (new_status,
        { db with
          chats := update_one (fun c => c.id == chat_id)
            (fun c => { c with admin_active := new_status }) db.chats })


/-- Fixture: a chat in the initial Automatic state (admin flag off). -/
def exChat : Chat := ⟨"c1", "u1", "alice", 0, 0, false⟩

/-- Fixture: one pre-existing user message sitting in the chat. -/
def exMsg : Message := ⟨"m1", "c1", "user", "ciao", "text", none, 1, false⟩

/-- Fixture: a database with one chat and one message. -/
def exDB : DB := ⟨[], [exChat], [exMsg], []⟩

/-- Fixture: a database with the chat in Human-Operated state. -/
def exDBOn : DB := ⟨[], [⟨"c1", "u1", "alice", 0, 0, true⟩], [exMsg], []⟩

/-- Fixture: an empty database. -/
def exDBEmpty : DB := ⟨[], [], [], []⟩

/-- Fixture: fresh ids and clock readings for one request. -/
def exEnv : ReqEnv := ⟨"i1", "i2", "i3", 2, 3, 4⟩

/-- Fixture: an external model that always fails. -/
def exFailCall : String → LlmOutcome := fun _ => LlmOutcome.failure

/-- Fixture: a non-admin verified caller distinct from the chat owner. -/
def exOtherTok : TokenPayload := ⟨"u2", false⟩

/-- Fixture: an admin verified caller. -/
def exAdminTok : TokenPayload := ⟨"adm", true⟩

theorem find?_update_one {α : Type} (p : α → Bool) (f : α → α)
    (hf : ∀ a, p a = true → p (f a) = true) :
    ∀ l : List α, (update_one p f l).find? p = (l.find? p).map f := by
  intro l
  induction l with
  | nil => rfl
  | cons x xs ih =>
    by_cases hx : p x = true
    · rw [update_one, if_pos hx, List.find?_cons_of_pos _ (hf x hx),
        List.find?_cons_of_pos _ hx, Option.map_some']
    · have hx' : p x = false := by simpa using hx
      rw [update_one, if_neg (by simp [hx']), List.find?_cons_of_neg _ (by simp [hx']),
        List.find?_cons_of_neg _ (by simp [hx']), ih]

theorem find?_append_none {α : Type} (p : α → Bool) (l : List α) (a : α)
    (h : l.find? p = none) (ha : p a = true) :
    (l ++ [a]).find? p = some a := by
  simp [List.find?_append, h, ha]

theorem toggle_of_found (db : DB) (chat_id : String) (user : TokenPayload)
    (chat : Chat) (hadmin : user.is_admin = true)
    (hchat : db.chats.find? (fun c => c.id == chat_id) = some chat) :
    toggle_admin_active db chat_id user =
      Except.ok (!chat.admin_active,
        { db with
          chats := update_one (fun c => c.id == chat_id)
            (fun c => { c with admin_active := !chat.admin_active }) db.chats }) := by
  rw [toggle_admin_active, hadmin]
  simp only [Bool.true_eq_false, if_false, hchat]

/-- C4: applying the admin handoff toggle twice in succession returns the
chat's `admin_active` flag to its original value (the first response reports
the negated flag, the second the original, and the stored chat ends with the
original flag). -/
theorem toggle_admin_active_involutive (db : DB) (chat_id : String)
    (user : TokenPayload) (chat : Chat) (hadmin : user.is_admin = true)
    (hchat : db.chats.find? (fun c => c.id == chat_id) = some chat) :
    ∃ db1 db2 chat2,
      toggle_admin_active db chat_id user = Except.ok (!chat.admin_active, db1) ∧
      toggle_admin_active db1 chat_id user = Except.ok (chat.admin_active, db2) ∧
      db2.chats.find? (fun c => c.id == chat_id) = some chat2 ∧
      chat2.admin_active = chat.admin_active := by
  have hpres : ∀ a : Chat, (fun c => c.id == chat_id) a = true →
      (fun c => c.id == chat_id) ({ a with admin_active := !chat.admin_active }) = true := by
    intro a ha; simpa using ha
  have h1 := toggle_of_found db chat_id user chat hadmin hchat
  set db1 : DB :=
    { db with
      chats := update_one (fun c => c.id == chat_id)
        (fun c => { c with admin_active := !chat.admin_active }) db.chats } with hdb1
  have hchat1 : db1.chats.find? (fun c => c.id == chat_id) =
      some { chat with admin_active := !chat.admin_active } := by
    rw [hdb1]
    show (update_one _ _ db.chats).find? _ = _
    rw [find?_update_one _ _ hpres db.chats, hchat, Option.map_some']
  have h2 := toggle_of_found db1 chat_id user
    { chat with admin_active := !chat.admin_active } hadmin hchat1
  refine ⟨db1,
    { db1 with
      chats := update_one (fun c => c.id == chat_id)
        (fun c => { c with admin_active := !(!chat.admin_active) }) db1.chats },
    { chat with admin_active := !(!chat.admin_active) }, h1, ?_, ?_, by simp⟩
  · simpa using h2
  · have hpres2 : ∀ a : Chat, (fun c => c.id == chat_id) a = true →
        (fun c => c.id == chat_id)
          ({ a with admin_active := !(!chat.admin_active) }) = true := by
      intro a ha; simpa using ha
    show (update_one _ _ db1.chats).find? _ = _
    rw [find?_update_one _ _ hpres2 db1.chats, hchat1, Option.map_some']

/-- Witness for C4 at a concrete database and admin caller. -/
theorem toggle_admin_active_involutive_witness :
    ∃ db1 db2 chat2,
      toggle_admin_active exDB "c1" exAdminTok = Except.ok (!exChat.admin_active, db1) ∧
      toggle_admin_active db1 "c1" exAdminTok = Except.ok (exChat.admin_active, db2) ∧
      db2.chats.find? (fun c => c.id == "c1") = some chat2 ∧
      chat2.admin_active = exChat.admin_active :=
  toggle_admin_active_involutive exDB "c1" exAdminTok exChat (by decide) (by decide)

/-- C8: listing a chat's messages returns them in non-decreasing timestamp
order, capped at 1000 items, and every returned message belongs to the chat,
for every database (hence regardless of insertion order). -/
theorem get_messages_sorted_and_capped (db : DB) (chat_id : String)
    (user : TokenPayload) :
    (get_messages db chat_id user).Sorted tsLe ∧
    (get_messages db chat_id user).length ≤ 1000 ∧
    ∀ m ∈ get_messages db chat_id user, m.chat_id = chat_id := by
  refine ⟨?_, ?_, ?_⟩
  · exact ((List.sorted_insertionSort tsLe _).sublist
      (List.take_sublist _ _))
  · simp [get_messages, List.length_take]
  · intro m hm
    have hm' : m ∈ sortByTimeAsc (db.messages.filter (fun m => m.chat_id == chat_id)) :=
      (List.take_sublist _ _).mem hm
    have : m ∈ db.messages.filter (fun m => m.chat_id == chat_id) := by
      have hperm := (List.perm_insertionSort tsLe
        (db.messages.filter (fun m => m.chat_id == chat_id)))
      exact hperm.mem_iff.mp hm'
    have := List.of_mem_filter this
    simpa using this

/-- C5: registering a fresh username creates a User whose password hash is
the deterministic hash of the password, the returned token's embedded user
id equals the created User's id, and a second registration with the same
username fails with the duplicate-username validation error (so no second
User is created). -/
theorem register_token_and_duplicate (db : DB) (id1 id2 : String)
    (username pw1 pw2 : String)
    (hfree : db.users.find? (fun u => u.username == username) = none) :
    ∃ tok created db1,
      register db id1 username pw1 = Except.ok (tok, created, db1) ∧
      created.id = id1 ∧
      created.username = username ∧
      created.password_hash = hash_password pw1 ∧
      db1.users = db.users ++ [created] ∧
      verify_token tok = Except.ok ⟨created.id, false⟩ ∧
      register db1 id2 username pw2 =
        Except.error (ApiError.badRequest "Username already exists") := by
  have hreg1 : register db id1 username pw1 =
      Except.ok (create_token id1 false,
        (⟨id1, username, hash_password pw1, false⟩ : User),
        { db with users := db.users ++ [⟨id1, username, hash_password pw1, false⟩] }) := by
    simp only [register, hfree]
  have hfind : ((db.users ++ [(⟨id1, username, hash_password pw1, false⟩ : User)]).find?
      (fun u => u.username == username)) =
        some ⟨id1, username, hash_password pw1, false⟩ :=
    find?_append_none _ _ _ hfree (by simp)
  have hreg2 : register
      { db with users := db.users ++ [⟨id1, username, hash_password pw1, false⟩] }
      id2 username pw2 =
      Except.error (ApiError.badRequest "Username already exists") := by
    simp only [register, hfind]
  exact ⟨_, _, _, hreg1, rfl, rfl, rfl, rfl,
    by simp [create_token, verify_token], hreg2⟩

/-- Witness for C5: registering `alice` in the empty database. -/
theorem register_token_and_duplicate_witness :
    ∃ tok created db1,
      register exDBEmpty "i1" "alice" "pw1" = Except.ok (tok, created, db1) ∧
      created.id = "i1" ∧
      created.username = "alice" ∧
      created.password_hash = hash_password "pw1" ∧
      db1.users = exDBEmpty.users ++ [created] ∧
      verify_token tok = Except.ok ⟨created.id, false⟩ ∧
      register db1 "i2" "alice" "pw2" =
        Except.error (ApiError.badRequest "Username already exists") :=
  register_token_and_duplicate exDBEmpty "i1" "i2" "alice" "pw1" "pw2" (by decide)

/-- C6: admin login succeeds exactly for the literal credential pair, every
successful admin login issues a token whose admin flag is true, and starting
from a store with no `admin` user the first successful admin login creates
the admin User while the second reuses the same id and leaves the store
unchanged. -/
theorem admin_login_contract (db : DB) (nid nid2 : String)
    (hfree : db.users.find? (fun u => u.username == "admin") = none) :
    (∀ (db' : DB) (nid' u p : String),
        (∃ r, admin_login db' nid' u p = Except.ok r) ↔
          (u = "admin" ∧ p = "sebastian_admin")) ∧
    (∀ (db' : DB) (nid' u p : String) (tok : Token) (uid : String) (db'' : DB),
        admin_login db' nid' u p = Except.ok (tok, uid, db'') →
        verify_token tok = Except.ok ⟨uid, true⟩) ∧
    (∃ tok db1,
      admin_login db nid "admin" "sebastian_admin" = Except.ok (tok, nid, db1) ∧
      db1.users = db.users ++ [⟨nid, "admin", hash_password "sebastian_admin", true⟩] ∧
      ∃ tok2, admin_login db1 nid2 "admin" "sebastian_admin" =
        Except.ok (tok2, nid, db1) ∧ verify_token tok2 = Except.ok ⟨nid, true⟩) := by
  refine ⟨?_, ?_, ?_⟩
  · intro db' nid' u p
    by_cases hc : (u == "admin" && p == "sebastian_admin") = true
    · have hup : u = "admin" ∧ p = "sebastian_admin" := by
        have := Bool.and_eq_true_iff.mp hc
        exact ⟨by simpa using this.1, by simpa using this.2⟩
      simp only [admin_login, hc, if_true]
      cases hfind : db'.users.find? (fun u => u.username == "admin") with
      | some a => simpa using hup
      | none => simpa using hup
    · have hc' : (u == "admin" && p == "sebastian_admin") = false := by
        simpa using hc
      simp only [admin_login, hc', if_false]
      constructor
      · rintro ⟨r, hr⟩; cases hr
      · rintro ⟨hu, hp⟩
        subst hu; subst hp
        simp at hc'
  · intro db' nid' u p tok uid db'' h
    rw [admin_login] at h
    by_cases hc : (u == "admin" && p == "sebastian_admin") = true
    · rw [if_pos hc] at h
      cases hfind : db'.users.find? (fun u => u.username == "admin") with
      | some a =>
        rw [hfind] at h
        have h1 : create_token a.id true = tok ∧ a.id = uid := by
          cases h; exact ⟨rfl, rfl⟩
        rw [← h1.1, ← h1.2]
        simp [create_token, verify_token]
      | none =>
        rw [hfind] at h
        have h1 : create_token nid' true = tok ∧ nid' = uid := by
          cases h; exact ⟨rfl, rfl⟩
        rw [← h1.1, ← h1.2]
        simp [create_token, verify_token]
    · rw [if_neg hc] at h; cases h
  · have hcond : (("admin" : String) == "admin" && ("sebastian_admin" : String) == "sebastian_admin") = true := by decide
    have h1 : admin_login db nid "admin" "sebastian_admin" =
        Except.ok (create_token nid true, nid,
          { db with users := db.users ++ [⟨nid, "admin", hash_password "sebastian_admin", true⟩] }) := by
      simp only [admin_login, hcond, if_true, hfree]
    have hfind : ((db.users ++
        [(⟨nid, "admin", hash_password "sebastian_admin", true⟩ : User)]).find?
          (fun u => u.username == "admin")) =
        some ⟨nid, "admin", hash_password "sebastian_admin", true⟩ :=
      find?_append_none _ _ _ hfree (by simp)
    have h2 : admin_login
        { db with users := db.users ++ [⟨nid, "admin", hash_password "sebastian_admin", true⟩] }
        nid2 "admin" "sebastian_admin" =
        Except.ok (create_token nid true, nid,
          { db with users := db.users ++ [⟨nid, "admin", hash_password "sebastian_admin", true⟩] }) := by
      simp only [admin_login, hcond, if_true, hfind]
    exact ⟨_, _, h1, rfl, _, h2, by simp [create_token, verify_token]⟩

/-- Witness for C6 in the empty database. -/
theorem admin_login_contract_witness :
    (∀ (db' : DB) (nid' u p : String),
        (∃ r, admin_login db' nid' u p = Except.ok r) ↔
          (u = "admin" ∧ p = "sebastian_admin")) ∧
    (∀ (db' : DB) (nid' u p : String) (tok : Token) (uid : String) (db'' : DB),
        admin_login db' nid' u p = Except.ok (tok, uid, db'') →
        verify_token tok = Except.ok ⟨uid, true⟩) ∧
    (∃ tok db1,
      admin_login exDBEmpty "i1" "admin" "sebastian_admin" = Except.ok (tok, "i1", db1) ∧
      db1.users = exDBEmpty.users ++ [⟨"i1", "admin", hash_password "sebastian_admin", true⟩] ∧
      ∃ tok2, admin_login db1 "i2" "admin" "sebastian_admin" =
        Except.ok (tok2, "i1", db1) ∧ verify_token tok2 = Except.ok ⟨"i1", true⟩) :=
  admin_login_contract exDBEmpty "i1" "i2" (by decide)

theorem send_message_found_on (env : ReqEnv) (call : String → LlmOutcome)
    (db : DB) (chat_id content mt : String) (user : TokenPayload) (chat : Chat)
    (hchat : db.chats.find? (fun c => c.id == chat_id) = some chat)
    (hA : chat.admin_active = true) :
    send_message env call db chat_id content mt user =
      Except.ok ({ db with
        messages := db.messages ++
          [⟨env.new_id1, chat_id, "user", content, mt, none, env.t_msg, false⟩],
        chats := update_one (fun c => c.id == chat_id)
          (fun c => { c with last_message_at := env.t_update }) db.chats }, []) := by
  simp only [send_message, hchat, hA, if_true]

theorem send_message_found_auto (env : ReqEnv) (call : String → LlmOutcome)
    (db : DB) (chat_id content mt : String) (user : TokenPayload) (chat : Chat)
    (hchat : db.chats.find? (fun c => c.id == chat_id) = some chat)
    (hA : chat.admin_active = false) :
    send_message env call db chat_id content mt user =
      (let umsg : Message :=
        ⟨env.new_id1, chat_id, "user", content, mt, none, env.t_msg, false⟩
       let db2 : DB := { db with
         messages := db.messages ++ [umsg],
         chats := update_one (fun c => c.id == chat_id)
           (fun c => { c with last_message_at := env.t_update }) db.chats }
       let r := get_sebastian_ai_response call content (recent_history db2 chat_id) none
       Except.ok ({ db2 with messages := db2.messages ++
           [⟨env.new_id2, chat_id, "sebastian", r.1, "text", none, env.t_bot, false⟩] },
         r.2)) := by
  simp only [send_message, hchat, hA, Bool.false_eq_true, if_false]

theorem upload_image_found_on (env : ReqEnv) (call : String → LlmOutcome)
    (db : DB) (chat_id ct filename : String) (bytes : List Nat)
    (caption : String) (user : TokenPayload) (chat : Chat)
    (hct : strStartsWith ct "image/" = true)
    (hchat : db.chats.find? (fun c => c.id == chat_id) = some chat)
    (hA : chat.admin_active = true) :
    upload_image env call db chat_id ct filename bytes caption user =
      (let fname := env.new_id1 ++ "." ++ file_ext filename
       let iu := "/uploads/" ++ fname
       let umsg : Message :=
         ⟨env.new_id2, chat_id, "user",
           (if caption == "" then image_placeholder_caption else caption),
           "image", some iu, env.t_msg, false⟩
       ({ db with
          uploads := db.uploads ++ [(fname, bytes)],
          messages := db.messages ++ [umsg],
          chats := update_one (fun c => c.id == chat_id)
            (fun c => { c with last_message_at := env.t_update }) db.chats },
        Except.ok (iu, []))) := by
  simp only [upload_image, hct, Bool.true_eq_false, if_false, hchat, hA, if_true]

theorem upload_image_found_auto (env : ReqEnv) (call : String → LlmOutcome)
    (db : DB) (chat_id ct filename : String) (bytes : List Nat)
    (caption : String) (user : TokenPayload) (chat : Chat)
    (hct : strStartsWith ct "image/" = true)
    (hchat : db.chats.find? (fun c => c.id == chat_id) = some chat)
    (hA : chat.admin_active = false) :
    upload_image env call db chat_id ct filename bytes caption user =
      (let fname := env.new_id1 ++ "." ++ file_ext filename
       let iu := "/uploads/" ++ fname
       let umsg : Message :=
         ⟨env.new_id2, chat_id, "user",
           (if caption == "" then image_placeholder_caption else caption),
           "image", some iu, env.t_msg, false⟩
       let db2 : DB := { db with
         uploads := db.uploads ++ [(fname, bytes)],
         messages := db.messages ++ [umsg],
         chats := update_one (fun c => c.id == chat_id)
           (fun c => { c with last_message_at := env.t_update }) db.chats }
       let image_prompt :=
         "L\u0027utente ha condiviso un\u0027immagine" ++
           (if caption == "" then ""
            else " con la didascalia: \u0027" ++ caption ++ "\u0027")
       let r := get_sebastian_ai_response call image_prompt
         (recent_history db2 chat_id) (some iu)
       ({ db2 with messages := db2.messages ++
           [⟨env.new_id3, chat_id, "sebastian", r.1, "text", none, env.t_bot, false⟩] },
        Except.ok (iu, r.2))) := by
  simp only [upload_image, hct, Bool.true_eq_false, if_false, hchat, hA, Bool.false_eq_true]

theorem upload_image_not_image (env : ReqEnv) (call : String → LlmOutcome)
    (db : DB) (chat_id ct filename : String) (bytes : List Nat)
    (caption : String) (user : TokenPayload)
    (hct : strStartsWith ct "image/" = false) :
    upload_image env call db chat_id ct filename bytes caption user =
      (db, Except.error (ApiError.badRequest "Only image files are allowed")) := by
  simp only [upload_image, hct, if_true]

theorem upload_image_notfound (env : ReqEnv) (call : String → LlmOutcome)
    (db : DB) (chat_id ct filename : String) (bytes : List Nat)
    (caption : String) (user : TokenPayload)
    (hct : strStartsWith ct "image/" = true)
    (hchat : db.chats.find? (fun c => c.id == chat_id) = none) :
    upload_image env call db chat_id ct filename bytes caption user =
      ({ db with uploads := db.uploads ++
          [(env.new_id1 ++ "." ++ file_ext filename, bytes)] },
       Except.error (ApiError.notFound "Chat not found")) := by
  simp only [upload_image, hct, Bool.true_eq_false, if_false, hchat]

/-- C1: for an inbound user text or image message to an existing chat, the
user message is always appended, and an automatically generated message with
sender `sebastian` and `is_admin_response = false` is appended if and only
if the chat's `admin_active` flag was false when the request read it. -/
theorem auto_reply_iff_not_admin_active (env : ReqEnv)
    (call : String → LlmOutcome) (db : DB)
    (chat_id content mt ct filename caption : String) (bytes : List Nat)
    (user : TokenPayload) (chat : Chat)
    (hchat : db.chats.find? (fun c => c.id == chat_id) = some chat)
    (hct : strStartsWith ct "image/" = true) :
    (∃ db' trace,
       send_message env call db chat_id content mt user = Except.ok (db', trace) ∧
       db'.messages.take db.messages.length = db.messages ∧
       (db'.messages.drop db.messages.length).head? =
         some ⟨env.new_id1, chat_id, "user", content, mt, none, env.t_msg, false⟩ ∧
       ((∃ b ∈ db'.messages.drop db.messages.length,
           b.sender = "sebastian" ∧ b.is_admin_response = false) ↔
         chat.admin_active = false)) ∧
    (∃ db' res,
       upload_image env call db chat_id ct filename bytes caption user =
         (db', Except.ok res) ∧
       db'.messages.take db.messages.length = db.messages ∧
       (∃ m, (db'.messages.drop db.messages.length).head? = some m ∧
         m.sender = "user") ∧
       ((∃ b ∈ db'.messages.drop db.messages.length,
           b.sender = "sebastian" ∧ b.is_admin_response = false) ↔
         chat.admin_active = false)) := by
  cases hA : chat.admin_active with
  | true =>
    constructor
    · refine ⟨_, _, send_message_found_on env call db chat_id content mt user chat hchat hA,
        ?_, ?_, ?_⟩
      · simp
      · simp
      · constructor
        · rintro ⟨b, hb, hs, -⟩
          simp only [List.drop_left] at hb
          rw [List.mem_singleton] at hb
          subst hb
          exact absurd (show ("user" : String) = "sebastian" from hs) (by decide)
        · intro h; exact absurd h (by decide)
    · refine ⟨_, _, upload_image_found_on env call db chat_id ct filename bytes
        caption user chat hct hchat hA, ?_, ?_, ?_⟩
      · simp
      · simp only [List.drop_left, List.head?_cons]
        exact ⟨_, rfl, rfl⟩
      · constructor
        · rintro ⟨b, hb, hs, -⟩
          simp only [List.drop_left] at hb
          rw [List.mem_singleton] at hb
          subst hb
          exact absurd (show ("user" : String) = "sebastian" from hs) (by decide)
        · intro h; exact absurd h (by decide)
  | false =>
    constructor
    · refine ⟨_, _, send_message_found_auto env call db chat_id content mt user chat hchat hA,
        ?_, ?_, ?_⟩
      · simp [List.append_assoc]
      · simp [List.append_assoc]
      · simp only [List.append_assoc, List.singleton_append, List.drop_left]
        constructor
        · intro _; trivial
        · intro _
          exact ⟨_, List.mem_cons_of_mem _ (List.mem_cons_self _ _), rfl, rfl⟩
    · refine ⟨_, _, upload_image_found_auto env call db chat_id ct filename bytes
        caption user chat hct hchat hA, ?_, ?_, ?_⟩
      · simp [List.append_assoc]
      · simp only [List.append_assoc, List.singleton_append, List.drop_left,
          List.head?_cons]
        exact ⟨_, rfl, rfl⟩
      · simp only [List.append_assoc, List.singleton_append, List.drop_left]
        constructor
        · intro _; trivial
        · intro _
          exact ⟨_, List.mem_cons_of_mem _ (List.mem_cons_self _ _), rfl, rfl⟩

/-- Witness for C1 at a concrete chat in Automatic state. -/
theorem auto_reply_iff_not_admin_active_witness :
    (∃ db' trace,
       send_message exEnv exFailCall exDB "c1" "hi" "text" exOtherTok =
         Except.ok (db', trace) ∧
       db'.messages.take exDB.messages.length = exDB.messages ∧
       (db'.messages.drop exDB.messages.length).head? =
         some ⟨exEnv.new_id1, "c1", "user", "hi", "text", none, exEnv.t_msg, false⟩ ∧
       ((∃ b ∈ db'.messages.drop exDB.messages.length,
           b.sender = "sebastian" ∧ b.is_admin_response = false) ↔
         exChat.admin_active = false)) ∧
    (∃ db' res,
       upload_image exEnv exFailCall exDB "c1" "image/png" "a.png" [1, 2] "" exOtherTok =
         (db', Except.ok res) ∧
       db'.messages.take exDB.messages.length = exDB.messages ∧
       (∃ m, (db'.messages.drop exDB.messages.length).head? = some m ∧
         m.sender = "user") ∧
       ((∃ b ∈ db'.messages.drop exDB.messages.length,
           b.sender = "sebastian" ∧ b.is_admin_response = false) ↔
         exChat.admin_active = false)) :=
  auto_reply_iff_not_admin_active exEnv exFailCall exDB "c1" "hi" "text"
    "image/png" "a.png" "" [1, 2] exOtherTok exChat (by decide) (by decide)

/-- C3: every generator invocation makes exactly one external call; when the
call fails the generator returns the fixed in-character apology instead of
an error (on success it returns the stripped response), and in Automatic
mode with a failing model the appended reply equals the fixed fallback. -/
theorem generator_fallback_contract (env : ReqEnv) (call : String → LlmOutcome)
    (message : String) (hist : List HistEntry) (iu : Option String)
    (db : DB) (chat_id content mt : String) (user : TokenPayload) (chat : Chat)
    (hchat : db.chats.find? (fun c => c.id == chat_id) = some chat)
    (hA : chat.admin_active = false) :
    ((get_sebastian_ai_response call message hist iu).2.length = 1) ∧
    (get_sebastian_ai_response (fun _ => LlmOutcome.failure) message hist iu =
      (sebastian_fallback, [build_prompt message hist iu])) ∧
    (∀ t, (get_sebastian_ai_response (fun _ => LlmOutcome.success t) message hist iu).1
      = pyStrip t) ∧
    (∃ db' trace,
       send_message env (fun _ => LlmOutcome.failure) db chat_id content mt user =
         Except.ok (db', trace) ∧
       db'.messages.getLast? = some
         ⟨env.new_id2, chat_id, "sebastian", sebastian_fallback, "text", none,
           env.t_bot, false⟩) := by
  refine ⟨?_, rfl, fun t => rfl, ?_⟩
  · rw [get_sebastian_ai_response]
    cases call (build_prompt message hist iu) <;> rfl
  · refine ⟨_, _, send_message_found_auto env (fun _ => LlmOutcome.failure) db
      chat_id content mt user chat hchat hA, ?_⟩
    exact List.getLast?_concat _

/-- Witness for C3 with a concrete chat and an always-failing model. -/
theorem generator_fallback_contract_witness :
    ((get_sebastian_ai_response exFailCall "hi" [] none).2.length = 1) ∧
    (get_sebastian_ai_response (fun _ => LlmOutcome.failure) "hi" [] none =
      (sebastian_fallback, [build_prompt "hi" [] none])) ∧
    (∀ t, (get_sebastian_ai_response (fun _ => LlmOutcome.success t) "hi" [] none).1
      = pyStrip t) ∧
    (∃ db' trace,
       send_message exEnv (fun _ => LlmOutcome.failure) exDB "c1" "hi" "text"
         exOtherTok = Except.ok (db', trace) ∧
       db'.messages.getLast? = some
         ⟨exEnv.new_id2, "c1", "sebastian", sebastian_fallback, "text", none,
           exEnv.t_bot, false⟩) :=
  generator_fallback_contract exEnv exFailCall "hi" [] none exDB "c1" "hi" "text"
    exOtherTok exChat (by decide) (by decide)

/-- C9: neither listing a chat's messages nor posting a user message checks
chat ownership: any verified, non-expired, non-admin caller succeeds on a
chat owned by a different user, and both handlers are independent of the
caller's identity. -/
theorem no_chat_ownership_check (env : ReqEnv) (call : String → LlmOutcome)
    (db : DB) (chat_id content mt : String) (tok : Token)
    (payload : TokenPayload) (chat : Chat)
    (hver : verify_token tok = Except.ok payload)
    (hnonadmin : payload.is_admin = false)
    (hchat : db.chats.find? (fun c => c.id == chat_id) = some chat)
    (howner : chat.user_id ≠ payload.user_id) :
    (∃ db' trace, send_message env call db chat_id content mt payload =
      Except.ok (db', trace)) ∧
    (∀ other : TokenPayload, get_messages db chat_id payload =
      get_messages db chat_id other) ∧
    (∀ other : TokenPayload, send_message env call db chat_id content mt payload =
      send_message env call db chat_id content mt other) := by
  refine ⟨?_, fun other => rfl, fun other => rfl⟩
  cases hA : chat.admin_active with
  | true =>
    exact ⟨_, _, send_message_found_on env call db chat_id content mt payload chat hchat hA⟩
  | false =>
    exact ⟨_, _, send_message_found_auto env call db chat_id content mt payload chat hchat hA⟩

/-- Witness for C9: a signed token for user `u2` acting on the chat owned by
`u1`. -/
theorem no_chat_ownership_check_witness :
    (∃ db' trace, send_message exEnv exFailCall exDB "c1" "hi" "text" exOtherTok =
      Except.ok (db', trace)) ∧
    (∀ other : TokenPayload, get_messages exDB "c1" exOtherTok =
      get_messages exDB "c1" other) ∧
    (∀ other : TokenPayload, send_message exEnv exFailCall exDB "c1" "hi" "text" exOtherTok =
      send_message exEnv exFailCall exDB "c1" "hi" "text" other) :=
  no_chat_ownership_check exEnv exFailCall exDB "c1" "hi" "text"
    (create_token "u2" false) exOtherTok exChat (by rfl) (by decide)
    (by decide) (by decide)

/-- C10: an upload with an image MIME type naming a missing chat fails with
NotFound, yet the file bytes have already been written to the upload store;
no message is appended and no other collection changes. -/
theorem upload_notfound_still_writes_file (env : ReqEnv)
    (call : String → LlmOutcome) (db : DB) (chat_id ct filename : String)
    (bytes : List Nat) (caption : String) (user : TokenPayload)
    (hct : strStartsWith ct "image/" = true)
    (hnochat : db.chats.find? (fun c => c.id == chat_id) = none) :
    ∃ db',
      upload_image env call db chat_id ct filename bytes caption user =
        (db', Except.error (ApiError.notFound "Chat not found")) ∧
      db'.uploads = db.uploads ++ [(env.new_id1 ++ "." ++ file_ext filename, bytes)] ∧
      db'.messages = db.messages ∧
      db'.chats = db.chats ∧
      db'.users = db.users :=
  ⟨_, upload_image_notfound env call db chat_id ct filename bytes caption user
    hct hnochat, rfl, rfl, rfl, rfl⟩

/-- Witness for C10: uploading `a.png` for an unknown chat id in the empty
database. -/
theorem upload_notfound_still_writes_file_witness :
    ∃ db',
      upload_image exEnv exFailCall exDBEmpty "nope" "image/png" "a.png" [7]
        "cap" exOtherTok =
        (db', Except.error (ApiError.notFound "Chat not found")) ∧
      db'.uploads = exDBEmpty.uploads ++
        [(exEnv.new_id1 ++ "." ++ file_ext "a.png", [7])] ∧
      db'.messages = exDBEmpty.messages ∧
      db'.chats = exDBEmpty.chats ∧
      db'.users = exDBEmpty.users :=
  upload_notfound_still_writes_file exEnv exFailCall exDBEmpty "nope" "image/png"
    "a.png" [7] "cap" exOtherTok (by decide) (by decide)

theorem splitOnChar_no_sep (c : Char) (e : List Char) (he : c ∉ e) :
    splitOnChar c e = [e] := by
  induction e with
  | nil => rfl
  | cons x xs ih =>
    have hx : x ≠ c := by rintro rfl; exact he (List.mem_cons_self _ _)
    have hxs : c ∉ xs := fun h => he (List.mem_cons_of_mem _ h)
    rw [splitOnChar]
    simp only [if_neg hx, ih hxs]

theorem splitOnChar_clean (c : Char) (b e : List Char) (hb : c ∉ b)
    (he : c ∉ e) : splitOnChar c (b ++ c :: e) = [b, e] := by
  induction b with
  | nil =>
    rw [List.nil_append, splitOnChar]
    simp [splitOnChar_no_sep c e he]
  | cons x b' ih =>
    have hx : x ≠ c := by rintro rfl; exact hb (List.mem_cons_self _ _)
    have hb' : c ∉ b' := fun h => hb (List.mem_cons_of_mem _ h)
    rw [List.cons_append, splitOnChar]
    simp only [if_neg hx, ih hb']

theorem file_ext_semantic (b e : List Char) (hb : ('.' : Char) ∉ b)
    (he : ('.' : Char) ∉ e) :
    file_ext (String.mk (b ++ '.' :: e)) = String.mk e := by
  have hc : strContains (String.mk (b ++ '.' :: e)) '.' = true := by
    simp [strContains]
  rw [file_ext, if_pos hc]
  show String.mk ((splitOnChar '.' (b ++ '.' :: e)).getLastD []) = String.mk e
  rw [splitOnChar_clean _ _ _ hb he]
  rfl

theorem file_ext_default (f : String) (h : strContains f '.' = false) :
    file_ext f = "jpg" := by
  simp [file_ext, h]

/-- C7: an upload fails with the validation error unless the declared MIME
type starts with `image/`; on success the appended message has kind `image`
and a non-empty media reference, the stored filename carries `file_ext` of
the original name — the segment after the last dot, or `jpg` when the name
has no dot — and an empty caption is replaced by the placeholder string. -/
theorem upload_validation_contract (env : ReqEnv) (call : String → LlmOutcome)
    (db : DB) (chat_id ct filename caption : String) (bytes : List Nat)
    (user : TokenPayload) (chat : Chat)
    (hchat : db.chats.find? (fun c => c.id == chat_id) = some chat)
    (hct : strStartsWith ct "image/" = true) :
    (∀ ct', strStartsWith ct' "image/" = false →
       upload_image env call db chat_id ct' filename bytes caption user =
         (db, Except.error (ApiError.badRequest "Only image files are allowed"))) ∧
    (∃ db' iu trace,
       upload_image env call db chat_id ct filename bytes caption user =
         (db', Except.ok (iu, trace)) ∧
       iu = "/uploads/" ++ (env.new_id1 ++ "." ++ file_ext filename) ∧
       iu ≠ "" ∧
       db'.uploads.drop db.uploads.length =
         [(env.new_id1 ++ "." ++ file_ext filename, bytes)] ∧
       (∃ m, (db'.messages.drop db.messages.length).head? = some m ∧
          m.message_type = "image" ∧ m.image_url = some iu ∧
          m.content =
            (if caption == "" then image_placeholder_caption else caption))) ∧
    (∀ f, strContains f '.' = false → file_ext f = "jpg") ∧
    (∀ b e : List Char, ('.' : Char) ∉ b → ('.' : Char) ∉ e →
       file_ext (String.mk (b ++ '.' :: e)) = String.mk e) := by
  have hne : ("/uploads/" ++ (env.new_id1 ++ "." ++ file_ext filename)) ≠ "" := by
    intro h
    have h1 := congrArg String.length h
    rw [String.length_append] at h1
    have h2 : ("/uploads/" : String).length = 9 := rfl
    have h3 : ("" : String).length = 0 := rfl
    rw [h2, h3] at h1
    omega
  refine ⟨?_, ?_, fun f hf => file_ext_default f hf, fun b e hb he => file_ext_semantic b e hb he⟩
  · intro ct' hct'
    exact upload_image_not_image env call db chat_id ct' filename bytes caption user hct'
  · cases hA : chat.admin_active with
    | true =>
      refine ⟨_, _, _, upload_image_found_on env call db chat_id ct filename bytes
        caption user chat hct hchat hA, rfl, hne, ?_, ?_⟩
      · simp
      · simp only [List.drop_left, List.head?_cons]
        exact ⟨_, rfl, rfl, rfl, rfl⟩
    | false =>
      refine ⟨_, _, _, upload_image_found_auto env call db chat_id ct filename bytes
        caption user chat hct hchat hA, rfl, hne, ?_, ?_⟩
      · simp
      · simp only [List.append_assoc, List.singleton_append, List.drop_left,
          List.head?_cons]
        exact ⟨_, rfl, rfl, rfl, rfl⟩

/-- Witness for C7: uploading `a.png` with an empty caption to the chat. -/
theorem upload_validation_contract_witness :
    (∀ ct', strStartsWith ct' "image/" = false →
       upload_image exEnv exFailCall exDB "c1" ct' "a.png" [1, 2] "" exOtherTok =
         (exDB, Except.error (ApiError.badRequest "Only image files are allowed"))) ∧
    (∃ db' iu trace,
       upload_image exEnv exFailCall exDB "c1" "image/png" "a.png" [1, 2] "" exOtherTok =
         (db', Except.ok (iu, trace)) ∧
       iu = "/uploads/" ++ (exEnv.new_id1 ++ "." ++ file_ext "a.png") ∧
       iu ≠ "" ∧
       db'.uploads.drop exDB.uploads.length =
         [(exEnv.new_id1 ++ "." ++ file_ext "a.png", [1, 2])] ∧
       (∃ m, (db'.messages.drop exDB.messages.length).head? = some m ∧
          m.message_type = "image" ∧ m.image_url = some iu ∧
          m.content =
            (if ("" : String) == "" then image_placeholder_caption else ""))) ∧
    (∀ f, strContains f '.' = false → file_ext f = "jpg") ∧
    (∀ b e : List Char, ('.' : Char) ∉ b → ('.' : Char) ∉ e →
       file_ext (String.mk (b ++ '.' :: e)) = String.mk e) :=
  upload_validation_contract exEnv exFailCall exDB "c1" "image/png" "a.png" ""
    [1, 2] exOtherTok exChat (by decide) (by decide)

/-- C2: evaluation of the code at a chat holding one prior message `ciao`
when the user sends `nuovo`: the prompt given to the external model renders
the conversation context from the just-sent message itself (`Utente: nuovo`)
and omits the preceding message, because the history slice drops the oldest
fetched message instead of the newest; the context claimed by the
specification (`Utente: ciao`) is not what is sent. -/
theorem context_includes_just_sent_message :
    ((send_message exEnv exFailCall exDB "c1" "nuovo" "text" exOtherTok).toOption.map
        (fun r => r.2) =
      some ["Contesto della conversazione:\nUtente: nuovo\n\nNuovo messaggio: nuovo"]) ∧
    ((send_message exEnv exFailCall exDB "c1" "nuovo" "text" exOtherTok).toOption.map
        (fun r => r.2) ≠
      some ["Contesto della conversazione:\nUtente: ciao\n\nNuovo messaggio: nuovo"]) := by
  constructor
  · decide
  · decide

end Sebastian
